import Mathlib

/-!
Verification of the chunk-type module of png-secret (src/src/chunk_type.rs).

Modelling conventions:
* Bytes and Unicode code points are `Nat`.
* The outcome of a fallible Rust call is an `RResult`: `ok` for a returned
  `Ok`, `error` for a returned `Err`, and `panicked` for a panic raised by
  `unwrap()`.
* The Rust source declares `struct ChunkType` with four `u8` fields
  (`ancillary_bit`, `private_bit`, `reserved_bit`, `safe_to_copy_bit`); the
  `TryFrom<[u8; 4]>` constructor fills exactly those fields.  However the
  `Display` impl, the `FromStr` constructor, `bytes()` and every predicate
  method read or write a field `byte_str` that the declared struct does not
  have, so the source file does not compile as written.  We embed both shapes:
  `ChunkType` for the declared struct (with the `TryFrom` constructor and the
  derived structural equality), and `ChunkTypeStr` for the `byte_str`-based
  state that the remaining method bodies define.
* `char::is_alphabetic`, `char::is_uppercase` and `char::is_lowercase` are
  Unicode property tests from the Rust standard library (outside this
  repository); they are tabulated here exactly for code points below 0x100
  (Basic Latin and Latin-1).  Every concrete input used in this development
  lies in that range.
-/

/-- Outcome of a fallible Rust computation: a returned Ok value, a returned
Err with its message, or a panic raised by unwrap(). -/
inductive RResult (α : Type) where
  | ok : α → RResult α
  | error : String → RResult α
  | panicked : RResult α
  deriving DecidableEq, Repr

/-- ASCII uppercase letter test: A-Z (0x41-0x5A). -/
def isAsciiUpper (c : Nat) : Bool := decide (65 ≤ c ∧ c ≤ 90)

/-- ASCII lowercase letter test: a-z (0x61-0x7A). -/
def isAsciiLower (c : Nat) : Bool := decide (97 ≤ c ∧ c ≤ 122)

/-- ASCII letter test: A-Z or a-z. -/
def isAsciiAlpha (c : Nat) : Bool := isAsciiUpper c || isAsciiLower c

/-- Modelled from the Rust standard library: char::is_uppercase (the Unicode
Uppercase property), tabulated exactly for code points below 0x100: the ASCII
capitals and the Latin-1 capitals À-Ö (0xC0-0xD6) and Ø-Þ (0xD8-0xDE). -/
def rust_char_is_uppercase (c : Nat) : Bool :=
  decide ((65 ≤ c ∧ c ≤ 90) ∨ (192 ≤ c ∧ c ≤ 214) ∨ (216 ≤ c ∧ c ≤ 222))

/-- Modelled from the Rust standard library: char::is_lowercase (the Unicode
Lowercase property), tabulated exactly for code points below 0x100: the ASCII
small letters, ª (0xAA), µ (0xB5), º (0xBA), ß-ö (0xDF-0xF6) and ø-ÿ
(0xF8-0xFF). -/
def rust_char_is_lowercase (c : Nat) : Bool :=
  decide ((97 ≤ c ∧ c ≤ 122) ∨ c = 170 ∨ c = 181 ∨ c = 186 ∨
    (223 ≤ c ∧ c ≤ 246) ∨ (248 ≤ c ∧ c ≤ 255))

/-- Modelled from the Rust standard library: char::is_alphabetic (the Unicode
Alphabetic property), tabulated exactly for code points below 0x100: the ASCII
letters, ª (0xAA), µ (0xB5), º (0xBA) and the Latin-1 letters À-ö except ×
(0xC0-0xD6, 0xD8-0xF6) and ø-ÿ (0xF8-0xFF). -/
def rust_char_is_alphabetic (c : Nat) : Bool :=
  decide ((65 ≤ c ∧ c ≤ 90) ∨ (97 ≤ c ∧ c ≤ 122) ∨ c = 170 ∨ c = 181 ∨
    c = 186 ∨ (192 ≤ c ∧ c ≤ 214) ∨ (216 ≤ c ∧ c ≤ 246) ∨ (248 ≤ c ∧ c ≤ 255))

/-- UTF-8 continuation byte test: 0x80-0xBF. -/
def isUtf8Cont (b : Nat) : Bool := decide (128 ≤ b ∧ b ≤ 191)

/-- Validity of a byte list as UTF-8, as checked by std::str::from_utf8:
one-byte sequences 0x00-0x7F, two-byte leads 0xC2-0xDF, three-byte leads
0xE0-0xEF (excluding overlong forms and surrogates), four-byte leads
0xF0-0xF4 (excluding overlong forms and code points above 0x10FFFF). -/
def utf8IsValid : List Nat → Bool
  | [] => true
  | b :: rest =>
    if b ≤ 127 then utf8IsValid rest
    else if 194 ≤ b ∧ b ≤ 223 then
      match rest with
      | c1 :: r => isUtf8Cont c1 && utf8IsValid r
      | [] => false
    else if b = 224 then
      match rest with
      | c1 :: c2 :: r =>
        decide (160 ≤ c1 ∧ c1 ≤ 191) && isUtf8Cont c2 && utf8IsValid r
      | _ => false
    else if 225 ≤ b ∧ b ≤ 236 then
      match rest with
      | c1 :: c2 :: r => isUtf8Cont c1 && isUtf8Cont c2 && utf8IsValid r
      | _ => false
    else if b = 237 then
      match rest with
      | c1 :: c2 :: r =>
        decide (128 ≤ c1 ∧ c1 ≤ 159) && isUtf8Cont c2 && utf8IsValid r
      | _ => false
    else if 238 ≤ b ∧ b ≤ 239 then
      match rest with
      | c1 :: c2 :: r => isUtf8Cont c1 && isUtf8Cont c2 && utf8IsValid r
      | _ => false
    else if b = 240 then
      match rest with
      | c1 :: c2 :: c3 :: r =>
        decide (144 ≤ c1 ∧ c1 ≤ 191) && isUtf8Cont c2 && isUtf8Cont c3 &&
          utf8IsValid r
      | _ => false
    else if 241 ≤ b ∧ b ≤ 243 then
      match rest with
      | c1 :: c2 :: c3 :: r =>
        isUtf8Cont c1 && isUtf8Cont c2 && isUtf8Cont c3 && utf8IsValid r
      | _ => false
    else if b = 244 then
      match rest with
      | c1 :: c2 :: c3 :: r =>
        decide (128 ≤ c1 ∧ c1 ≤ 143) && isUtf8Cont c2 && isUtf8Cont c3 &&
          utf8IsValid r
      | _ => false
    else false

/-- UTF-8 encoding of one code point, as String::as_bytes exposes it. -/
def utf8EncodeChar (c : Nat) : List Nat :=
  if c < 128 then [c]
  else if c < 2048 then [192 + c / 64, 128 + c % 64]
  else if c < 65536 then
    [224 + c / 4096, 128 + (c / 64) % 64, 128 + c % 64]
  else
    [240 + c / 262144, 128 + (c / 4096) % 64, 128 + (c / 64) % 64,
      128 + c % 64]

/-- UTF-8 encoding of a string given as its list of code points. -/
def utf8EncodeList (s : List Nat) : List Nat := (s.map utf8EncodeChar).flatten

/-- The ChunkType struct exactly as declared in the source: four u8 fields.
This is the shape the TryFrom<[u8; 4]> constructor fills, and the derived
PartialEq/Eq compare these four fields structurally. -/
structure ChunkType where
  ancillary_bit : Nat
  private_bit : Nat
  reserved_bit : Nat
  safe_to_copy_bit : Nat
  deriving DecidableEq, Repr

/-- The state that the Display impl, the FromStr constructor, bytes() and the
five predicate methods read or write: a single field byte_str holding a
String, embedded here as its list of character code points.  The declared
ChunkType struct has no byte_str field, so the source does not compile; this
structure embeds the shape those method bodies define. -/
structure ChunkTypeStr where
  byte_str : List Nat
  deriving DecidableEq, Repr

/-- TryFrom<[u8; 4]>::try_from: first converts the four bytes to a string via
std::str::from_utf8(&value).unwrap() — a panic on invalid UTF-8; the converted
string is then never used — and returns Ok of the struct holding the four raw
bytes in the four bit fields.  No alphabetic check is performed on any byte. -/
def chunk_type_try_from (b0 b1 b2 b3 : Nat) : RResult ChunkType :=
  if utf8IsValid [b0, b1, b2, b3] then
    RResult.ok ⟨b0, b1, b2, b3⟩
  else RResult.panicked

/-- FromStr::from_str: returns Ok of a byte_str-shaped value holding the input
string when every character satisfies char::is_alphabetic, and
Err("Chunk must be alphabetic") otherwise.  There is no length check. -/
def chunk_type_from_str (s : List Nat) : RResult ChunkTypeStr :=
  if s.all rust_char_is_alphabetic then RResult.ok ⟨s⟩
  else RResult.error "Chunk must be alphabetic"

/-- fmt::Display for ChunkType: writes self.byte_str. -/
def chunk_type_display (t : ChunkTypeStr) : List Nat := t.byte_str

/-- ChunkType::bytes: self.byte_str.as_bytes().try_into().unwrap() — the UTF-8
bytes of byte_str converted to [u8; 4], a panic unless exactly 4 bytes. -/
def ChunkTypeStr.bytes (t : ChunkTypeStr) : RResult (List Nat) :=
  let bs := utf8EncodeList t.byte_str
  if bs.length = 4 then RResult.ok bs else RResult.panicked

/-- ChunkType::is_critical: self.byte_str.chars().nth(0).unwrap() — a panic on
an empty string — then is_uppercase on that character. -/
def ChunkTypeStr.is_critical (t : ChunkTypeStr) : RResult Bool :=
  match t.byte_str.get? 0 with
  | some c => RResult.ok (rust_char_is_uppercase c)
  | none => RResult.panicked

/-- ChunkType::is_public: self.byte_str.chars().nth(1).unwrap() — a panic when
the string is shorter than 2 — then is_uppercase on that character. -/
def ChunkTypeStr.is_public (t : ChunkTypeStr) : RResult Bool :=
  match t.byte_str.get? 1 with
  | some c => RResult.ok (rust_char_is_uppercase c)
  | none => RResult.panicked

/-- ChunkType::is_reserved_bit_valid: self.byte_str.chars().nth(2).unwrap() —
a panic when the string is shorter than 3 — then
ch.is_uppercase() && ch.is_alphabetic(). -/
def ChunkTypeStr.is_reserved_bit_valid (t : ChunkTypeStr) : RResult Bool :=
  match t.byte_str.get? 2 with
  | some c => RResult.ok (rust_char_is_uppercase c && rust_char_is_alphabetic c)
  | none => RResult.panicked

/-- ChunkType::is_safe_to_copy: self.byte_str.chars().nth(3).unwrap() — a
panic when the string is shorter than 4 — then is_lowercase. -/
def ChunkTypeStr.is_safe_to_copy (t : ChunkTypeStr) : RResult Bool :=
  match t.byte_str.get? 3 with
  | some c => RResult.ok (rust_char_is_lowercase c)
  | none => RResult.panicked

/-- ChunkType::is_valid: exactly self.is_reserved_bit_valid(). -/
def ChunkTypeStr.is_valid (t : ChunkTypeStr) : RResult Bool :=
  t.is_reserved_bit_valid

/-- On ASCII code points the Unicode uppercase test coincides with the ASCII
uppercase-letter test. -/
theorem rust_upper_of_ascii (c : Nat) (h : c < 128) :
    rust_char_is_uppercase c = isAsciiUpper c := by
  simp only [rust_char_is_uppercase, isAsciiUpper, decide_eq_decide]
  omega

/-- On ASCII code points the Unicode lowercase test coincides with the ASCII
lowercase-letter test. -/
theorem rust_lower_of_ascii (c : Nat) (h : c < 128) :
    rust_char_is_lowercase c = isAsciiLower c := by
  simp only [rust_char_is_lowercase, isAsciiLower, decide_eq_decide]
  omega

/-- On ASCII code points the Unicode alphabetic test coincides with the ASCII
letter test. -/
theorem rust_alpha_of_ascii (c : Nat) (h : c < 128) :
    rust_char_is_alphabetic c = isAsciiAlpha c := by
  simp only [rust_char_is_alphabetic, isAsciiAlpha, isAsciiUpper, isAsciiLower]
  rw [Bool.eq_iff_iff]
  simp only [decide_eq_true_eq, Bool.or_eq_true]
  omega

/-- An ASCII letter is alphabetic under the Unicode test. -/
theorem rust_alpha_of_asciiAlpha (c : Nat) (h : isAsciiAlpha c = true) :
    rust_char_is_alphabetic c = true := by
  simp only [isAsciiAlpha, isAsciiUpper, isAsciiLower, Bool.or_eq_true,
    decide_eq_true_eq] at h
  simp only [rust_char_is_alphabetic, decide_eq_true_eq]
  omega

/-- An ASCII uppercase letter is in particular an ASCII letter. -/
theorem asciiUpper_and_alpha (c : Nat) :
    (isAsciiUpper c && isAsciiAlpha c) = isAsciiUpper c := by
  cases h : isAsciiUpper c
  · simp
  · simp [isAsciiAlpha, h]

/-- C1: evaluation at the failing inputs.  The byte constructor accepts
"1111" (all digits, non-alphabetic), returning Ok instead of a decode error,
and on the invalid UTF-8 input [255, 65, 65, 65] it panics inside
from_utf8(..).unwrap() instead of returning a decode error. -/
theorem C1_try_from_skips_validation :
    chunk_type_try_from 49 49 49 49 = RResult.ok ⟨49, 49, 49, 49⟩ ∧
      chunk_type_try_from 255 65 65 65 = RResult.panicked ∧
      isAsciiAlpha 49 = false := by decide

/-- C2: evaluation at the failing input.  The byte constructor builds a Tag
from "0000" (all digits), so a Tag holding non-alphabetic bytes is reachable
through a public constructor; the string constructor likewise accepts the
non-ASCII "éééé" (0xE9 is not an ASCII letter). -/
theorem C2_invalid_tag_reachable :
    chunk_type_try_from 48 48 48 48 = RResult.ok ⟨48, 48, 48, 48⟩ ∧
      isAsciiAlpha 48 = false ∧
      chunk_type_from_str [233, 233, 233, 233] =
        RResult.ok ⟨[233, 233, 233, 233]⟩ ∧
      isAsciiAlpha 233 = false := by decide

/-- C3: evaluation at the failing input [82, 117, 83, 116] ("RuSt"): try_from
succeeds and stores the bytes in the four bit fields of the declared struct;
bytes(), however, reads the byte_str field that this struct does not have, so
the claimed round trip has no defined value — the source does not compile,
and its own test asserting this round trip cannot run. -/
theorem C3_try_from_storage :
    chunk_type_try_from 82 117 83 116 = RResult.ok ⟨82, 117, 83, 116⟩ := by
  decide

/-- C4: for every 4-character ASCII-alphabetic string s, the string
constructor succeeds with a Tag holding exactly s, and the Display form of
that Tag is exactly s. -/
theorem C4_string_roundtrip (s : List Nat) (hlen : s.length = 4)
    (halpha : s.all isAsciiAlpha = true) :
    chunk_type_from_str s = RResult.ok ⟨s⟩ ∧ chunk_type_display ⟨s⟩ = s := by
  refine ⟨?_, rfl⟩
  have hall : s.all rust_char_is_alphabetic = true := by
    rw [List.all_eq_true] at halpha ⊢
    intro c hc
    exact rust_alpha_of_asciiAlpha c (halpha c hc)
  simp [chunk_type_from_str, hall]

/-- C4 witness: the round trip at the concrete string "RuSt". -/
theorem C4_string_roundtrip_witness :
    chunk_type_from_str [82, 117, 83, 116] = RResult.ok ⟨[82, 117, 83, 116]⟩ ∧
      chunk_type_display ⟨[82, 117, 83, 116]⟩ = [82, 117, 83, 116] :=
  C4_string_roundtrip [82, 117, 83, 116] (by decide) (by decide)

/-- C5: evaluation at s = "RuSt" and b = [82, 117, 83, 116]: the two
constructors build values of incompatible shapes — try_from fills the four
bit fields of the declared struct, from_str writes the absent byte_str field
— so the derived structural equality between their results is a compile
error, not a boolean; the source's own test asserting the equality cannot
run. -/
theorem C5_constructor_shapes :
    chunk_type_try_from 82 117 83 116 = RResult.ok ⟨82, 117, 83, 116⟩ ∧
      chunk_type_from_str [82, 117, 83, 116] =
        RResult.ok ⟨[82, 117, 83, 116]⟩ := by decide

/-- C6: evaluation at the failing input "Hello" (5 letters): the string
constructor performs no length check and returns Ok; bytes() on the result
then panics.  The empty string is accepted as well. -/
theorem C6_no_length_check :
    chunk_type_from_str [72, 101, 108, 108, 111] =
      RResult.ok ⟨[72, 101, 108, 108, 111]⟩ ∧
      ChunkTypeStr.bytes ⟨[72, 101, 108, 108, 111]⟩ = RResult.panicked ∧
      chunk_type_from_str [] = RResult.ok ⟨[]⟩ := by decide

/-- C7 counterexample: "éééé" consists of characters outside the ASCII letter
ranges (é is 0xE9), yet the string constructor accepts it instead of failing
with a decode error. -/
theorem C7_nonascii_accepted :
    chunk_type_from_str [233, 233, 233, 233] =
      RResult.ok ⟨[233, 233, 233, 233]⟩ ∧ isAsciiAlpha 233 = false := by
  decide

/-- C7 (amended): the string constructor fails with the decode error exactly
when some character is not alphabetic under the locale-aware Unicode
classification char::is_alphabetic; strings of non-ASCII alphabetic
characters are accepted, not rejected. -/
theorem C7_from_str_alphabetic_iff (s : List Nat) :
    chunk_type_from_str s = RResult.error "Chunk must be alphabetic" ↔
      s.all rust_char_is_alphabetic = false := by
  unfold chunk_type_from_str
  cases h : s.all rust_char_is_alphabetic <;> simp [h]

/-- C8 counterexample: the Tag built from "ÉÉÉÉ" (É is 0xC9, accepted by the
string constructor): is_critical returns true although byte 0 of the stored
text is the UTF-8 lead byte 0xC3, which is not an uppercase letter. -/
theorem C8_counterexample_nonascii :
    chunk_type_from_str [201, 201, 201, 201] =
      RResult.ok ⟨[201, 201, 201, 201]⟩ ∧
      ChunkTypeStr.is_critical ⟨[201, 201, 201, 201]⟩ = RResult.ok true ∧
      (utf8EncodeList [201, 201, 201, 201]).get? 0 = some 195 ∧
      isAsciiUpper 195 = false := by decide

/-- C8 (amended): on every Tag holding four ASCII characters, is_critical is
true iff character 0 is an uppercase letter, is_public is true iff character
1 is an uppercase letter, and is_safe_to_copy is true iff character 3 is a
lowercase letter. -/
theorem C8_predicates_on_ascii (b0 b1 b2 b3 : Nat) (h0 : b0 < 128)
    (h1 : b1 < 128) (h3 : b3 < 128) :
    ChunkTypeStr.is_critical ⟨[b0, b1, b2, b3]⟩ =
        RResult.ok (isAsciiUpper b0) ∧
      ChunkTypeStr.is_public ⟨[b0, b1, b2, b3]⟩ =
        RResult.ok (isAsciiUpper b1) ∧
      ChunkTypeStr.is_safe_to_copy ⟨[b0, b1, b2, b3]⟩ =
        RResult.ok (isAsciiLower b3) := by
  simp only [ChunkTypeStr.is_critical, ChunkTypeStr.is_public,
    ChunkTypeStr.is_safe_to_copy, List.get?]
  rw [rust_upper_of_ascii b0 h0, rust_upper_of_ascii b1 h1,
    rust_lower_of_ascii b3 h3]
  exact ⟨rfl, rfl, rfl⟩

/-- C8 witness: the amended predicate table at the concrete Tag "RuSt". -/
theorem C8_predicates_on_ascii_witness :
    ChunkTypeStr.is_critical ⟨[82, 117, 83, 116]⟩ =
        RResult.ok (isAsciiUpper 82) ∧
      ChunkTypeStr.is_public ⟨[82, 117, 83, 116]⟩ =
        RResult.ok (isAsciiUpper 117) ∧
      ChunkTypeStr.is_safe_to_copy ⟨[82, 117, 83, 116]⟩ =
        RResult.ok (isAsciiLower 116) :=
  C8_predicates_on_ascii 82 117 83 116 (by decide) (by decide) (by decide)

/-- C9 counterexample: the Tag built from "ÉÉÉÉ": is_reserved_bit_valid
returns true although byte 2 of the stored text is the UTF-8 lead byte 0xC3,
which is not an uppercase letter. -/
theorem C9_counterexample_nonascii :
    chunk_type_from_str [201, 201, 201, 201] =
      RResult.ok ⟨[201, 201, 201, 201]⟩ ∧
      ChunkTypeStr.is_reserved_bit_valid ⟨[201, 201, 201, 201]⟩ =
        RResult.ok true ∧
      (utf8EncodeList [201, 201, 201, 201]).get? 2 = some 195 ∧
      isAsciiUpper 195 = false := by decide

/-- C9 (amended): on every Tag holding four ASCII characters,
is_reserved_bit_valid is true iff character 2 is an uppercase letter, and
is_valid returns exactly the same outcome as is_reserved_bit_valid. -/
theorem C9_reserved_and_valid (b0 b1 b2 b3 : Nat) (h2 : b2 < 128) :
    ChunkTypeStr.is_reserved_bit_valid ⟨[b0, b1, b2, b3]⟩ =
        RResult.ok (isAsciiUpper b2) ∧
      ChunkTypeStr.is_valid ⟨[b0, b1, b2, b3]⟩ =
        ChunkTypeStr.is_reserved_bit_valid ⟨[b0, b1, b2, b3]⟩ := by
  refine ⟨?_, rfl⟩
  simp only [ChunkTypeStr.is_reserved_bit_valid, List.get?]
  rw [rust_upper_of_ascii b2 h2, rust_alpha_of_ascii b2 h2,
    asciiUpper_and_alpha]

/-- C9 witness: the amended reserved-bit and validity facts at the concrete
Tag "RuSt". -/
theorem C9_reserved_and_valid_witness :
    ChunkTypeStr.is_reserved_bit_valid ⟨[82, 117, 83, 116]⟩ =
        RResult.ok (isAsciiUpper 83) ∧
      ChunkTypeStr.is_valid ⟨[82, 117, 83, 116]⟩ =
        ChunkTypeStr.is_reserved_bit_valid ⟨[82, 117, 83, 116]⟩ :=
  C9_reserved_and_valid 82 117 83 116 (by decide)

/-- C10: evaluation at the failing input: the string constructor accepts
"abc" (3 letters), and on the resulting Tag both is_safe_to_copy() and
bytes() panic via unwrap() instead of returning a value. -/
theorem C10_accessors_can_panic :
    chunk_type_from_str [97, 98, 99] = RResult.ok ⟨[97, 98, 99]⟩ ∧
      ChunkTypeStr.is_safe_to_copy ⟨[97, 98, 99]⟩ = RResult.panicked ∧
      ChunkTypeStr.bytes ⟨[97, 98, 99]⟩ = RResult.panicked := by decide
